import Mathlib

/-!
Shallow embedding of the Mermaid diagram rendering coordinator
(the self-registering IIFE script of this repository).

The script is single-threaded and event-driven.  Asynchronous control
flow is embedded by splitting each async function at its suspension
points into pure state-transformer functions over explicit state, and
by recording DOM side effects (innerHTML writes, style writes, waits,
setTimeout scheduling, script injection) as explicit event traces.
Nondeterministic externals (whether a CDN script loads, whether a
mermaid.render call succeeds, the dark class of the document root)
are oracle parameters.
-/

/-- Source constant `MAX_RETRIES = 3` (global retry budget). -/
def MAX_RETRIES : Nat := 3

/-- Source constant `RETRY_DELAY = 1000` milliseconds. -/
def RETRY_DELAY : Nat := 1000

/-- Theme string derived from the dark class: `isDark ? "dark" : "default"`.
Used at lines 19, 159 and 275 of the script. -/
def themeOf (isDark : Bool) : String := if isDark then "dark" else "default"

/-- Source function `hasThemeChanged`.  `currentTheme` is the module
variable (a string or `null`, embedded as `Option String`); the
function reads the documentElement dark flag, compares the derived
theme with `currentTheme`, and on difference updates `currentTheme`
and returns true.  Returns the new `currentTheme` and the boolean. -/
def hasThemeChanged (isDark : Bool) (currentTheme : Option String) :
    Option String × Bool :=
  let newTheme := themeOf isDark
  if currentTheme ≠ some newTheme then (some newTheme, true)
  else (currentTheme, false)

/-- Primary CDN URL of `loadMermaid`. -/
def primaryCDN : String :=
  "https://cdn.jsdelivr.net/npm/mermaid@11/dist/mermaid.min.js"

/-- Fallback CDN URL of `loadMermaid`. -/
def fallbackCDN : String :=
  "https://unpkg.com/mermaid@11/dist/mermaid.min.js"

/-- Rejection message of `loadMermaid` when both scripts fail. -/
def bothFailedMsg : String :=
  "Failed to load Mermaid from both primary and fallback CDNs"

/-- Result of a promise-returning bootstrap step. -/
inductive LoadResult where
  | resolved
  | rejected (msg : String)
  deriving Repr, DecidableEq

/-- Source function `loadMermaid`.  If `window.mermaid` is already
defined it resolves at once; otherwise it appends a script element for
the primary CDN, on its error event appends one for the fallback CDN,
and rejects only when the fallback also errors.  The oracles say
whether `window.mermaid` is present and whether each script load
fires `onload` (true) or `onerror` (false).  The second component is
the list of script sources appended to `document.head`, in order. -/
def loadMermaid (mermaidPresent primaryLoads fallbackLoads : Bool) :
    LoadResult × List String :=
  if mermaidPresent then (.resolved, [])
  else if primaryLoads then (.resolved, [primaryCDN])
  else if fallbackLoads then (.resolved, [primaryCDN, fallbackCDN])
  else (.rejected bothFailedMsg, [primaryCDN, fallbackCDN])

/-- Module state touched by the event listeners of
`setupEventListeners`: the `currentTheme` and `retryCount` variables. -/
structure ListenerState where
  currentTheme : Option String
  retryCount : Nat
  deriving Repr, DecidableEq

/-- Source handler for `astro:page-load` (lines 83-90): sets
`currentTheme = null`, `retryCount = 0`, then calls
`hasThemeChanged()` and, when it reports a change, schedules
`renderMermaidDiagrams` after 100 ms.  `domDark` is the documentElement
dark flag at the time the handler runs.  Returns the new listener
state and the list of scheduled render delays. -/
def astroPageLoadHandler (domDark : Bool) (_s : ListenerState) :
    ListenerState × List Nat :=
  let ctReset : Option String := none
  let r := hasThemeChanged domDark ctReset
  (⟨r.1, 0⟩, if r.2 then [100] else [])

/-- Source handler for `visibilitychange` (lines 93-97): when the
document is not hidden it schedules `renderMermaidDiagrams` after
200 ms; the listener state is not touched at all. -/
def visibilityChangeHandler (hidden : Bool) (s : ListenerState) :
    ListenerState × List Nat :=
  if hidden then (s, []) else (s, [200])

/-- Page-global state observed by the IIFE entry point: the
`window.mermaidInitialized` guard flag and counters of the side
effects of one bootstrap run (one `initialize` invocation registering
one MutationObserver and two document event listeners). -/
structure PageState where
  mermaidInitialized : Bool
  bootstrapRuns : Nat
  observersRegistered : Nat
  listenersRegistered : Nat
  deriving Repr, DecidableEq

/-- The IIFE entry point (lines 1-7, 321-344): if
`window.mermaidInitialized` is set it returns at once; otherwise it
sets the flag and performs the bootstrap (`initialize`: one
MutationObserver via `setupMutationObserver`, two listeners via
`setupEventListeners`, then the load/config/render sequence counted
here as one bootstrap run). -/
def entryPoint (g : PageState) : PageState :=
  if g.mermaidInitialized then g
  else
    { mermaidInitialized := true
      bootstrapRuns := g.bootstrapRuns + 1
      observersRegistered := g.observersRegistered + 1
      listenersRegistered := g.listenersRegistered + 2 }

/-- Transient placeholder written before each render attempt
(line 196 of the script). -/
def loadingHTML : String :=
  "<div class=\"mermaid-loading\">Rendering diagram...</div>"

/-- Dark-mode visual filter applied to the rendered svg (line 217). -/
def darkFilter : String := "brightness(0.9) contrast(1.1)"

/-- Filter value chosen from the dark snapshot (lines 216-220). -/
def filterOf (isDark : Bool) : String :=
  if isDark then darkFilter else "none"

/-- Per-target maximum attempt count, `maxAttempts = 3` (line 185). -/
def maxAttempts : Nat := 3

/-- Terminal error placeholder written after the attempts are
exhausted (lines 237-244; template whitespace flattened, with the
`maxAttempts` interpolation). -/
def errorHTML : String :=
  "<div class=\"mermaid-error\"><p>Failed to render diagram after "
  ++ toString maxAttempts
  ++ " attempts.</p><button onclick=\"location.reload()\" style=\"margin-top: 8px; padding: 4px 8px; background: var(--primary); color: white; border: none; border-radius: 4px; cursor: pointer;\">Retry Page</button></div>"

/-- DOM side effects on one RenderTarget during the per-target retry
loop: innerHTML writes, the awaited `mermaid.render` call (tagged with
the value of the `attempts` counter at the call), backoff waits, and
the responsive/filter style writes on the rendered svg. -/
inductive TEv where
  | write (html : String)
  | renderCall (attempt : Nat)
  | waitMs (ms : Nat)
  | setWidth (w : String)
  | setFilter (f : String)
  deriving Repr, DecidableEq

/-- The per-target `while (attempts < maxAttempts)` loop of
`renderMermaidDiagrams` (lines 182-253).  `code` is the
`data-mermaid-code` attribute (none when absent; the empty string is
falsy in the `if (!code) break` test).  `render attempts` is the
outcome oracle of the awaited `mermaid.render` call: `some svg` when
it resolves, `none` when it throws.  On success the loop writes the
loading placeholder, renders, writes the svg, normalizes the svg
width and sets the filter from the dark snapshot, then breaks.  On
failure it increments `attempts`; at the ceiling it writes the
terminal error placeholder, otherwise it waits `500 * attempts`
milliseconds and iterates.  `fuel` bounds the recursion; the counter
strictly increases on failure, so `maxAttempts + 1` fuel is exact. -/
def renderTargetLoop (code : Option String) (render : Nat → Option String)
    (isDark : Bool) : Nat → Nat → List TEv
  | _, 0 => []
  | attempts, fuel + 1 =>
    if attempts < maxAttempts then
      match code with
      | none => []
      | some c =>
        if c = "" then []
        else
          match render attempts with
          | some svg =>
            [.write loadingHTML, .renderCall attempts, .write svg,
             .setWidth "100%", .setFilter (filterOf isDark)]
          | none =>
            let a := attempts + 1
            (if maxAttempts ≤ a then
              [.write loadingHTML, .renderCall attempts, .write errorHTML]
            else
              [.write loadingHTML, .renderCall attempts, .waitMs (500 * a)])
            ++ renderTargetLoop code render isDark a fuel
    else []

/-- One full per-target run, from `attempts = 0`. -/
def renderTarget (code : Option String) (render : Nat → Option String)
    (isDark : Bool) : List TEv :=
  renderTargetLoop code render isDark 0 (maxAttempts + 1)

/-- Final innerHTML of a target after a trace of events, starting
from its initial content. -/
def finalContent (init : String) : List TEv → String
  | [] => init
  | .write s :: rest => finalContent s rest
  | _ :: rest => finalContent init rest

/-- Module state of the render scheduler: the `isRendering` flag and
the `retryCount` budget. -/
structure SchedState where
  isRendering : Bool
  retryCount : Nat
  deriving Repr, DecidableEq

/-- Environment of one `renderMermaidDiagrams` invocation.
`mermaidAvailable` is the line-137 test (`window.mermaid` with a
`render` function); `elements` are the `data-mermaid-code` attributes
of the `.mermaid[data-mermaid-code]` nodes in document order (the
attribute is re-read inside the loop, modelled as constant during the
pass); `dark t` is the documentElement dark flag at suspension tick
`t` (the pass samples it exactly once, at tick 1, after the settling
delay); `render i a` is the mermaid.render oracle for element `i`,
attempt counter `a`; `configThrows` makes the pass-level
`window.mermaid.initialize` call at line 162 throw, exercising the
outer catch. -/
structure PassEnv where
  mermaidAvailable : Bool
  elements : List (Option String)
  dark : Nat → Bool
  render : Nat → Nat → Option String
  configThrows : Bool

/-- Pass-level events of one `renderMermaidDiagrams` run. -/
inductive PEv where
  | flagSet
  | flagClear
  | warnUnavailable
  | settleDelay (ms : Nat)
  | configureTheme (theme : String)
  | targetEv (idx : Nat) (e : TEv)
  | scheduleRetry (delayMs : Nat)
  deriving Repr, DecidableEq

/-- Outcome of the synchronous prefix of `renderMermaidDiagrams`. -/
inductive SyncOutcome where
  | droppedBusy
  | droppedUnavailable
  | emptyReturn
  | suspendedInPass
  deriving Repr, DecidableEq

/-- Synchronous prefix of `renderMermaidDiagrams` (lines 130-155): the
`isRendering` guard, the availability check (a console warning), the
`isRendering = true` write, the element query with the empty early
return (which resets the flag, line 150), and otherwise suspension at
the 100 ms settling delay with the flag set.  Everything up to the
first `await` runs atomically before any other trigger can run. -/
def triggerSync (env : PassEnv) (s : SchedState) :
    SchedState × SyncOutcome × List PEv :=
  if s.isRendering then (s, .droppedBusy, [])
  else if env.mermaidAvailable = false then (s, .droppedUnavailable, [.warnUnavailable])
  else if env.elements = [] then
    ({ s with isRendering := false }, .emptyReturn, [.flagSet, .flagClear])
  else ({ s with isRendering := true }, .suspendedInPass, [.flagSet])

/-- Continuation of a pass from the settling-delay suspension
(lines 155-269): samples the dark flag once (tick 1), reconfigures the
library once with the derived theme (line 162), then either the outer
catch path (config throw: bounded reschedule of
`renderMermaidDiagrams` with delay `RETRY_DELAY * retryCount`,
lines 259-266) or the per-target loops joined in document order with
`retryCount` reset on success (line 258); the `finally` clears
`isRendering` on every path (line 268). -/
def passContinue (env : PassEnv) (s : SchedState) : SchedState × List PEv :=
  let isDark := env.dark 1
  let theme := themeOf isDark
  if env.configThrows then
    if s.retryCount < MAX_RETRIES then
      (⟨false, s.retryCount + 1⟩,
       [.settleDelay 100, .configureTheme theme,
        .scheduleRetry (RETRY_DELAY * (s.retryCount + 1)), .flagClear])
    else
      (⟨false, s.retryCount⟩,
       [.settleDelay 100, .configureTheme theme, .flagClear])
  else
    let targetTraces := env.elements.enum.map
      (fun p => (renderTarget p.2 (env.render p.1) isDark).map (PEv.targetEv p.1))
    (⟨false, 0⟩,
     [.settleDelay 100, .configureTheme theme] ++ targetTraces.flatten ++ [.flagClear])

/-- One full `renderMermaidDiagrams` invocation, run to settlement:
the synchronous prefix followed, when the pass suspended, by the
continuation. -/
def renderMermaidDiagrams (env : PassEnv) (s : SchedState) :
    SchedState × List PEv :=
  let r := triggerSync env s
  if r.2.1 = SyncOutcome.suspendedInPass then
    let r2 := passContinue env r.1
    (r2.1, r.2.2 ++ r2.2)
  else (r.1, r.2.2)

/-- Target-level suspension points: the awaited render call and the
backoff wait. -/
def TEv.isSuspension : TEv → Bool
  | .renderCall _ => true
  | .waitMs _ => true
  | _ => false

/-- Pass-level suspension points: the settling delay and the
suspensions inside a target. -/
def PEv.isSuspension : PEv → Bool
  | .settleDelay _ => true
  | .targetEv _ e => e.isSuspension
  | _ => false

/-- Configuration events of a pass trace. -/
def PEv.isConfigure : PEv → Bool
  | .configureTheme _ => true
  | _ => false

/-- Module state of the theme-change detector: `currentTheme` and the
list of settling delays of the re-render passes it scheduled. -/
structure ObserverState where
  currentTheme : Option String
  scheduledRenders : List Nat
  deriving Repr, DecidableEq

/-- Processing of one MutationRecord by the observer callback
(lines 50-68): `wasDark` is derived from `mutation.oldValue`,
`finalIsDark` from `target.classList` — the live class list, hence
the state after the whole batch for every record of the batch.  When
they differ, `hasThemeChanged` is consulted and on a change a
re-render is scheduled after the 150 ms settling delay. -/
def processMutation (finalIsDark wasDark : Bool) (s : ObserverState) :
    ObserverState :=
  if wasDark ≠ finalIsDark then
    let r := hasThemeChanged finalIsDark s.currentTheme
    if r.2 then ⟨r.1, s.scheduledRenders ++ [150]⟩ else ⟨r.1, s.scheduledRenders⟩
  else s

/-- The observer callback over one delivered batch of records
(`mutations.forEach`, line 50). -/
def processMutationBatch (finalIsDark : Bool) (records : List Bool)
    (s : ObserverState) : ObserverState :=
  records.foldl (fun st w => processMutation finalIsDark w st) s

/-- The `oldValue` dark flags of the records generated by a mutation
history: `d0` is the class state before the batch and `muts` the
states after each successive mutation; record `i` carries the state
before mutation `i`. -/
def recordsOf (d0 : Bool) (muts : List Bool) : List Bool :=
  d0 :: muts.dropLast

/-- Environment of one `initialize` run: the `loadMermaid` oracles and
the `waitForMermaid` oracle of each successive `initializeMermaid`
execution (true when the poll resolves within its timeout). -/
structure InitEnv where
  mermaidPresent : Bool
  primaryLoads : Bool
  fallbackLoads : Bool
  waitSucceeds : Nat → Bool

/-- Observable outcome of one `initialize` run. -/
structure InitTrace where
  scriptsInjected : List String
  renderPassExecuted : Bool
  initRetryDelays : List Nat
  consoleErrors : List String
  deriving Repr, DecidableEq

/-- Console message of the `initialize` catch (line 334). -/
def initFailedMsg : String := "Failed to initialize Mermaid system:"

/-- Console message of the `initializeMermaid` catch (line 121). -/
def mermaidInitFailedMsg : String := "Failed to initialize Mermaid:"

/-- The `initializeMermaid` retry chain (lines 100-128): execution
`execIdx` awaits `waitForMermaid`; on success it configures the
library and runs the render pass; on failure the catch, while
`retryCount < MAX_RETRIES`, increments `retryCount` and reschedules
`initializeMermaid` itself after `RETRY_DELAY * retryCount`.  Returns
the scheduled retry delays in order, whether some execution reached
the render pass, and the error messages logged.  The counter strictly
increases on each retried failure, so `MAX_RETRIES + 1` fuel is
exact. -/
def initializeMermaidRun (waitSucceeds : Nat → Bool) :
    Nat → Nat → Nat → List Nat × Bool × List String
  | _, _, 0 => ([], false, [])
  | execIdx, retryCount, fuel + 1 =>
    if waitSucceeds execIdx then ([], true, [])
    else if retryCount < MAX_RETRIES then
      let rc := retryCount + 1
      let r := initializeMermaidRun waitSucceeds (execIdx + 1) rc fuel
      (RETRY_DELAY * rc :: r.1, r.2.1, mermaidInitFailedMsg :: r.2.2)
    else ([], false, [mermaidInitFailedMsg])

/-- The `initialize` sequence (lines 321-336; the source name is the
IIFE-local `initialize`): wires the observer and listeners, records
the theme state, then `await loadMermaid(); await initializeMermaid()`
inside a try whose catch only logs.  When `loadMermaid` rejects,
`initializeMermaid` is never invoked: no render pass and no retry is
scheduled on that path. -/
def initializeSeq (env : InitEnv) : InitTrace :=
  let load := loadMermaid env.mermaidPresent env.primaryLoads env.fallbackLoads
  match load.1 with
  | .rejected _ =>
    { scriptsInjected := load.2
      renderPassExecuted := false
      initRetryDelays := []
      consoleErrors := [initFailedMsg] }
  | .resolved =>
    let r := initializeMermaidRun env.waitSucceeds 0 0 (MAX_RETRIES + 1)
    { scriptsInjected := load.2
      renderPassExecuted := r.2.1
      initRetryDelays := r.1
      consoleErrors := r.2.2 }

/-- C5: `loadMermaid` is idempotent — with the library global already
present it resolves immediately and injects no script; otherwise it
injects the primary CDN script, injects the fallback CDN script
exactly when the primary load fails, and rejects if and only if both
the primary and the fallback source fail to load. -/
theorem c5_loadMermaid_contract (p f : Bool) :
    loadMermaid true p f = (.resolved, [])
    ∧ (loadMermaid false p f).2.head? = some primaryCDN
    ∧ loadMermaid false true f = (.resolved, [primaryCDN])
    ∧ loadMermaid false false true = (.resolved, [primaryCDN, fallbackCDN])
    ∧ ((loadMermaid false p f).1 = LoadResult.rejected bothFailedMsg
        ↔ p = false ∧ f = false) := by
  cases p <;> cases f <;> simp [loadMermaid]

/-- C8: running the entry point twice in the same page lifetime
performs the bootstrap exactly once: the second invocation returns at
the `window.mermaidInitialized` guard, so the composite equals a
single run and every side-effect counter (bootstrap runs, observers,
listeners) grows exactly once. -/
theorem c8_duplicate_initialization_noop (g : PageState)
    (h : g.mermaidInitialized = false) :
    entryPoint (entryPoint g) = entryPoint g
    ∧ (entryPoint (entryPoint g)).bootstrapRuns = g.bootstrapRuns + 1
    ∧ (entryPoint (entryPoint g)).observersRegistered = g.observersRegistered + 1
    ∧ (entryPoint (entryPoint g)).listenersRegistered = g.listenersRegistered + 2
    := by
  simp [entryPoint, h]

/-- Witness for C8 at the fresh page state. -/
theorem c8_duplicate_initialization_noop_witness :
    entryPoint (entryPoint ⟨false, 0, 0, 0⟩) = entryPoint ⟨false, 0, 0, 0⟩
    ∧ (entryPoint (entryPoint ⟨false, 0, 0, 0⟩)).bootstrapRuns = 0 + 1
    ∧ (entryPoint (entryPoint ⟨false, 0, 0, 0⟩)).observersRegistered = 0 + 1
    ∧ (entryPoint (entryPoint ⟨false, 0, 0, 0⟩)).listenersRegistered = 0 + 2 :=
  c8_duplicate_initialization_noop ⟨false, 0, 0, 0⟩ rfl

/-- C6 counterexample: the visibility handler, on the document
becoming visible, schedules a re-render after 200 ms but leaves
`currentTheme` untouched (here it stays `some "dark"` instead of
being reset), refuting the claim that both lifecycle handlers reset
the recorded `currentTheme` before the re-render they schedule. -/
theorem c6_counterexample :
    (visibilityChangeHandler false ⟨some "dark", 2⟩).2 = [200]
    ∧ (visibilityChangeHandler false ⟨some "dark", 2⟩).1.currentTheme
        = some "dark"
    ∧ (visibilityChangeHandler false ⟨some "dark", 2⟩).1.currentTheme ≠ none
    := by
  refine ⟨rfl, rfl, ?_⟩
  simp [visibilityChangeHandler]

/-- C6 amended: only the `astro:page-load` handler resets
`currentTheme` (to null, immediately re-derived by
`hasThemeChanged`, so a 100 ms re-render is always scheduled and
`retryCount` is cleared); the visibility handler schedules a 200 ms
re-render without touching the recorded state, and does nothing while
the document is hidden. -/
theorem c6_amended_only_pageload_resets (d : Bool) (s : ListenerState) :
    (astroPageLoadHandler d s).1 = ⟨some (themeOf d), 0⟩
    ∧ (astroPageLoadHandler d s).2 = [100]
    ∧ visibilityChangeHandler false s = (s, [200])
    ∧ visibilityChangeHandler true s = (s, []) := by
  refine ⟨?_, ?_, rfl, rfl⟩ <;> simp [astroPageLoadHandler, hasThemeChanged]

/-- C10: a target whose `data-mermaid-code` attribute is absent or
empty exits the per-target loop before the first attempt: its event
trace is empty (no placeholder, no render call, no error placeholder)
and its content is left unchanged. -/
theorem c10_missing_or_empty_code_untouched (render : Nat → Option String)
    (isDark : Bool) (init : String) :
    renderTarget none render isDark = []
    ∧ renderTarget (some "") render isDark = []
    ∧ finalContent init (renderTarget none render isDark) = init
    ∧ finalContent init (renderTarget (some "") render isDark) = init := by
  refine ⟨?h1, ?h2, ?_, ?_⟩ <;>
    simp [renderTarget, renderTargetLoop, maxAttempts, finalContent]

/-- C2: a target whose render always fails is attempted exactly 3
times — each attempt preceded by the transient loading placeholder,
each failed non-final attempt followed by a `500 * attempt_index`
millisecond wait (500 ms, then 1000 ms), the third failure followed
by the terminal error placeholder (which offers the manual
`location.reload()` button) — and the trace ends there: the target is
never attempted again within the pass. -/
theorem c2_retry_ceiling (c : String) (hc : c ≠ "")
    (render : Nat → Option String) (hfail : ∀ n, render n = none)
    (isDark : Bool) (init : String) :
    renderTarget (some c) render isDark =
      [.write loadingHTML, .renderCall 0, .waitMs 500,
       .write loadingHTML, .renderCall 1, .waitMs 1000,
       .write loadingHTML, .renderCall 2, .write errorHTML]
    ∧ finalContent init (renderTarget (some c) render isDark) = errorHTML
    ∧ (∃ pre post, errorHTML = pre ++ "location.reload()" ++ post) := by
  have htrace : renderTarget (some c) render isDark =
      [.write loadingHTML, .renderCall 0, .waitMs 500,
       .write loadingHTML, .renderCall 1, .waitMs 1000,
       .write loadingHTML, .renderCall 2, .write errorHTML] := by
    simp [renderTarget, renderTargetLoop, maxAttempts, hc, hfail]
  refine ⟨htrace, ?_, ?_⟩
  · rw [htrace]; simp [finalContent]
  · exact ⟨"<div class=\"mermaid-error\"><p>Failed to render diagram after "
      ++ toString maxAttempts ++ " attempts.</p><button onclick=\"",
      "\" style=\"margin-top: 8px; padding: 4px 8px; background: var(--primary); color: white; border: none; border-radius: 4px; cursor: pointer;\">Retry Page</button></div>",
      by rfl⟩

/-- Witness for C2 at a concrete always-failing target. -/
theorem c2_retry_ceiling_witness :
    renderTarget (some "graph TD;") (fun _ => none) false =
      [.write loadingHTML, .renderCall 0, .waitMs 500,
       .write loadingHTML, .renderCall 1, .waitMs 1000,
       .write loadingHTML, .renderCall 2, .write errorHTML]
    ∧ finalContent "original"
        (renderTarget (some "graph TD;") (fun _ => none) false) = errorHTML
    ∧ (∃ pre post, errorHTML = pre ++ "location.reload()" ++ post) :=
  c2_retry_ceiling "graph TD;" (by decide) (fun _ => none) (fun _ => rfl)
    false "original"

/-- The derived theme strings of distinct dark flags differ. -/
theorem themeOf_ne (a b : Bool) (h : a ≠ b) : themeOf a ≠ themeOf b := by
  cases a <;> cases b <;> simp_all [themeOf]

/-- A record batch leaves the observer state fixed once
`currentTheme` already matches the theme derived from the live class
list. -/
theorem processMutationBatch_fixed (f : Bool) (rs : List Bool)
    (s : ObserverState) (h : s.currentTheme = some (themeOf f)) :
    processMutationBatch f rs s = s := by
  induction rs with
  | nil => rfl
  | cons w rest ih =>
    have hone : processMutation f w s = s := by
      cases s with
      | mk ct sched => simp_all [processMutation, hasThemeChanged]
    calc processMutationBatch f (w :: rest) s
        = processMutationBatch f rest (processMutation f w s) := rfl
      _ = processMutationBatch f rest s := by rw [hone]
      _ = s := ih

/-- C3: for a delivered batch of class-attribute mutations of the
document root — `d0` the dark flag before the batch, `muts` the flags
after each successive mutation, `dFinal` the flag the callback reads
from the live class list — under the maintained invariant that
`currentTheme` records the pre-batch theme: when the derived theme
differs from `currentTheme` exactly one re-render is scheduled after
the 150 ms settling delay and `currentTheme` is updated; when it is
equal (redundant mutations, including a dark flip on and off within
the same tick) zero passes are scheduled and the state is unchanged. -/
theorem c3_theme_change_scheduling (d0 dFinal : Bool) (muts : List Bool)
    (s : ObserverState) (hinv : s.currentTheme = some (themeOf d0))
    (_hlast : muts.getLast? = some dFinal) :
    (dFinal ≠ d0 →
      processMutationBatch dFinal (recordsOf d0 muts) s =
        ⟨some (themeOf dFinal), s.scheduledRenders ++ [150]⟩)
    ∧ (dFinal = d0 → processMutationBatch dFinal (recordsOf d0 muts) s = s)
    := by
  constructor
  · intro hne
    have hstep : processMutation dFinal d0 s =
        ⟨some (themeOf dFinal), s.scheduledRenders ++ [150]⟩ := by
      have hgate : d0 ≠ dFinal := fun h => hne h.symm
      have hth : s.currentTheme ≠ some (themeOf dFinal) := by
        rw [hinv]
        intro h
        exact themeOf_ne d0 dFinal hgate (by injection h)
      simp [processMutation, hasThemeChanged, hgate, hth]
    calc processMutationBatch dFinal (recordsOf d0 muts) s
        = processMutationBatch dFinal muts.dropLast
            (processMutation dFinal d0 s) := rfl
      _ = _ := by
          rw [hstep]
          exact processMutationBatch_fixed dFinal muts.dropLast _ rfl
  · intro heq
    have hstep : processMutation dFinal d0 s = s := by
      subst heq
      simp [processMutation]
    calc processMutationBatch dFinal (recordsOf d0 muts) s
        = processMutationBatch dFinal muts.dropLast
            (processMutation dFinal d0 s) := rfl
      _ = s := by
          rw [hstep]
          exact processMutationBatch_fixed dFinal muts.dropLast s
            (heq ▸ hinv)

/-- Witness for C3 at the same-tick on/off flip (net no change): one
mutation batch turning dark on and back off schedules nothing and
leaves the recorded theme as it was. -/
theorem c3_theme_change_scheduling_witness :
    (false ≠ false →
      processMutationBatch false (recordsOf false [true, false])
        ⟨some "default", []⟩ = ⟨some (themeOf false), [] ++ [150]⟩)
    ∧ (false = false →
      processMutationBatch false (recordsOf false [true, false])
        ⟨some "default", []⟩ = ⟨some "default", []⟩) :=
  c3_theme_change_scheduling false false [true, false]
    ⟨some "default", []⟩ rfl rfl

/-- C1: a trigger of `renderMermaidDiagrams` that arrives while the
`isRendering` flag is set is dropped as a pure no-op (unchanged state,
empty event trace, hence no RenderTarget mutation), and two triggers
in immediate succession from the idle state start exactly one pass:
the first suspends with the flag set, the second — running the
synchronous prefix while the first pass is still pending — is dropped
at the guard. -/
theorem c1_at_most_one_active_pass (envB env : PassEnv) (sB s0 : SchedState)
    (hbusy : sB.isRendering = true) (hidle : s0.isRendering = false)
    (hm : env.mermaidAvailable = true) (hne : env.elements ≠ []) :
    (triggerSync envB sB = (sB, .droppedBusy, [])
      ∧ renderMermaidDiagrams envB sB = (sB, []))
    ∧ ((triggerSync env s0).1.isRendering = true
      ∧ (triggerSync env s0).2.1 = .suspendedInPass
      ∧ triggerSync env (triggerSync env s0).1 =
          ((triggerSync env s0).1, .droppedBusy, [])) := by
  constructor
  · constructor
    · simp [triggerSync, hbusy]
    · simp [renderMermaidDiagrams, triggerSync, hbusy]
  · have h1 : triggerSync env s0 =
        ({ s0 with isRendering := true }, .suspendedInPass, [.flagSet]) := by
      simp [triggerSync, hidle, hm, hne]
    rw [h1]
    exact ⟨rfl, rfl, by simp [triggerSync]⟩

/-- Witness for C1: a busy state drops the trigger; from idle, two
immediate triggers on a one-target page start exactly one pass. -/
theorem c1_at_most_one_active_pass_witness :
    (triggerSync ⟨true, [some "graph TD;"], fun _ => false, fun _ _ => none, false⟩
        ⟨true, 0⟩ = (⟨true, 0⟩, .droppedBusy, [])
      ∧ renderMermaidDiagrams
          ⟨true, [some "graph TD;"], fun _ => false, fun _ _ => none, false⟩
          ⟨true, 0⟩ = (⟨true, 0⟩, []))
    ∧ ((triggerSync ⟨true, [some "graph TD;"], fun _ => false, fun _ _ => none, false⟩
          ⟨false, 0⟩).1.isRendering = true
      ∧ (triggerSync ⟨true, [some "graph TD;"], fun _ => false, fun _ _ => none, false⟩
          ⟨false, 0⟩).2.1 = .suspendedInPass
      ∧ triggerSync ⟨true, [some "graph TD;"], fun _ => false, fun _ _ => none, false⟩
          (triggerSync ⟨true, [some "graph TD;"], fun _ => false, fun _ _ => none, false⟩
            ⟨false, 0⟩).1 =
          ((triggerSync ⟨true, [some "graph TD;"], fun _ => false, fun _ _ => none, false⟩
            ⟨false, 0⟩).1, .droppedBusy, [])) :=
  c1_at_most_one_active_pass
    ⟨true, [some "graph TD;"], fun _ => false, fun _ _ => none, false⟩
    ⟨true, [some "graph TD;"], fun _ => false, fun _ _ => none, false⟩
    ⟨true, 0⟩ ⟨false, 0⟩ rfl rfl rfl (by simp)

/-- From an idle state a trigger is never dropped at the busy guard:
the scheduler can always start (or at least evaluate) a new pass. -/
theorem triggerSync_not_dropped_of_idle (env : PassEnv) (s : SchedState)
    (h : s.isRendering = false) :
    (triggerSync env s).2.1 ≠ SyncOutcome.droppedBusy := by
  cases hm : env.mermaidAvailable
  · simp [triggerSync, h, hm]
  · by_cases he : env.elements = [] <;> simp [triggerSync, h, hm, he]

/-- C9: from an idle state, every `renderMermaidDiagrams` invocation
settles with `isRendering = false` (empty-target early return,
successful completion and pass-level exception alike), the flag-set
event precedes every suspension point of the trace (it is the very
first event of any trace containing a suspension), every trace that
sets the flag ends by clearing it, and afterwards a new trigger is
never dropped at the busy guard — no permanent lockout. -/
theorem c9_flag_cleared_on_all_exits (env : PassEnv) (s : SchedState)
    (hidle : s.isRendering = false) :
    (renderMermaidDiagrams env s).1.isRendering = false
    ∧ ((∃ e ∈ (renderMermaidDiagrams env s).2, e.isSuspension = true) →
        (renderMermaidDiagrams env s).2.head? = some PEv.flagSet)
    ∧ (PEv.flagSet ∈ (renderMermaidDiagrams env s).2 →
        ∃ pre, (renderMermaidDiagrams env s).2 = pre ++ [PEv.flagClear])
    ∧ (triggerSync env (renderMermaidDiagrams env s).1).2.1 ≠
        SyncOutcome.droppedBusy := by
  cases hm : env.mermaidAvailable
  · have hrun : renderMermaidDiagrams env s = (s, [PEv.warnUnavailable]) := by
      simp [renderMermaidDiagrams, triggerSync, hidle, hm]
    rw [hrun]
    refine ⟨hidle, ?_, ?_, triggerSync_not_dropped_of_idle env s hidle⟩
    · rintro ⟨e, he, hs⟩
      simp at he
      subst he
      simp [PEv.isSuspension] at hs
    · intro h
      simp at h
  · by_cases he : env.elements = []
    · have hrun : renderMermaidDiagrams env s =
          ({ s with isRendering := false }, [PEv.flagSet, PEv.flagClear]) := by
        simp [renderMermaidDiagrams, triggerSync, hidle, hm, he]
      rw [hrun]
      exact ⟨rfl, fun _ => rfl, fun _ => ⟨[PEv.flagSet], rfl⟩,
        triggerSync_not_dropped_of_idle env _ rfl⟩
    · cases hc : env.configThrows
      · have hrun : renderMermaidDiagrams env s =
            (⟨false, 0⟩,
             PEv.flagSet :: PEv.settleDelay 100 ::
               PEv.configureTheme (themeOf (env.dark 1)) ::
               ((env.elements.enum.map (fun p =>
                  (renderTarget p.2 (env.render p.1) (env.dark 1)).map
                    (PEv.targetEv p.1))).flatten ++ [PEv.flagClear])) := by
          simp [renderMermaidDiagrams, triggerSync, passContinue, hidle, hm,
            he, hc]
        rw [hrun]
        refine ⟨rfl, fun _ => rfl, fun _ => ?_, triggerSync_not_dropped_of_idle env _ rfl⟩
        exact ⟨PEv.flagSet :: PEv.settleDelay 100 ::
          PEv.configureTheme (themeOf (env.dark 1)) ::
          (env.elements.enum.map (fun p =>
            (renderTarget p.2 (env.render p.1) (env.dark 1)).map
              (PEv.targetEv p.1))).flatten, by simp⟩
      · by_cases hrc : s.retryCount < MAX_RETRIES
        · have hrun : renderMermaidDiagrams env s =
              (⟨false, s.retryCount + 1⟩,
               [PEv.flagSet, PEv.settleDelay 100,
                PEv.configureTheme (themeOf (env.dark 1)),
                PEv.scheduleRetry (RETRY_DELAY * (s.retryCount + 1)),
                PEv.flagClear]) := by
            simp [renderMermaidDiagrams, triggerSync, passContinue, hidle, hm,
              he, hc, hrc]
          rw [hrun]
          exact ⟨rfl, fun _ => rfl,
            fun _ => ⟨[PEv.flagSet, PEv.settleDelay 100,
              PEv.configureTheme (themeOf (env.dark 1)),
              PEv.scheduleRetry (RETRY_DELAY * (s.retryCount + 1))], rfl⟩,
            triggerSync_not_dropped_of_idle env _ rfl⟩
        · have hrun : renderMermaidDiagrams env s =
              (⟨false, s.retryCount⟩,
               [PEv.flagSet, PEv.settleDelay 100,
                PEv.configureTheme (themeOf (env.dark 1)),
                PEv.flagClear]) := by
            simp [renderMermaidDiagrams, triggerSync, passContinue, hidle, hm,
              he, hc, hrc]
          rw [hrun]
          exact ⟨rfl, fun _ => rfl,
            fun _ => ⟨[PEv.flagSet, PEv.settleDelay 100,
              PEv.configureTheme (themeOf (env.dark 1))], rfl⟩,
            triggerSync_not_dropped_of_idle env _ rfl⟩

/-- Witness for C9 on a concrete idle one-target page. -/
theorem c9_flag_cleared_on_all_exits_witness :
    (renderMermaidDiagrams
        ⟨true, [some "graph TD;"], fun _ => false, fun _ _ => none, false⟩
        ⟨false, 0⟩).1.isRendering = false
    ∧ ((∃ e ∈ (renderMermaidDiagrams
          ⟨true, [some "graph TD;"], fun _ => false, fun _ _ => none, false⟩
          ⟨false, 0⟩).2, e.isSuspension = true) →
        (renderMermaidDiagrams
          ⟨true, [some "graph TD;"], fun _ => false, fun _ _ => none, false⟩
          ⟨false, 0⟩).2.head? = some PEv.flagSet)
    ∧ (PEv.flagSet ∈ (renderMermaidDiagrams
          ⟨true, [some "graph TD;"], fun _ => false, fun _ _ => none, false⟩
          ⟨false, 0⟩).2 →
        ∃ pre, (renderMermaidDiagrams
          ⟨true, [some "graph TD;"], fun _ => false, fun _ _ => none, false⟩
          ⟨false, 0⟩).2 = pre ++ [PEv.flagClear])
    ∧ (triggerSync
        ⟨true, [some "graph TD;"], fun _ => false, fun _ _ => none, false⟩
        (renderMermaidDiagrams
          ⟨true, [some "graph TD;"], fun _ => false, fun _ _ => none, false⟩
          ⟨false, 0⟩).1).2.1 ≠ SyncOutcome.droppedBusy :=
  c9_flag_cleared_on_all_exits
    ⟨true, [some "graph TD;"], fun _ => false, fun _ _ => none, false⟩
    ⟨false, 0⟩ rfl


/-- Every filter written by the per-target loop is the one derived
from the dark snapshot handed to the loop. -/
theorem renderTargetLoop_setFilter (code : Option String)
    (render : Nat → Option String) (isDark : Bool) (f : String) :
    ∀ fuel attempts,
      TEv.setFilter f ∈ renderTargetLoop code render isDark attempts fuel →
      f = filterOf isDark := by
  intro fuel
  induction fuel with
  | zero =>
    intro attempts h
    simp [renderTargetLoop] at h
  | succ n ih =>
    intro attempts h
    unfold renderTargetLoop at h
    by_cases ha : attempts < maxAttempts
    · rw [if_pos ha] at h
      cases code with
      | none => simp at h
      | some c =>
        dsimp only at h
        by_cases hcE : c = ""
        · rw [if_pos hcE] at h
          simp at h
        · rw [if_neg hcE] at h
          cases hr : render attempts with
          | some svg =>
            rw [hr] at h
            simp at h
            exact h
          | none =>
            rw [hr] at h
            simp only [List.mem_append] at h
            rcases h with h | h
            · by_cases hle : maxAttempts ≤ attempts + 1
              · rw [if_pos hle] at h
                simp at h
              · rw [if_neg hle] at h
                simp at h
            · exact ih (attempts + 1) h
    · rw [if_neg ha] at h
      simp at h

/-- C7: in a pass that reaches rendering, the library is reconfigured
exactly once, with the theme derived from the single dark snapshot
taken after the settling delay; every filter written to a rendered
target in the pass is uniformly derived from that same snapshot; and
the pass depends on the document dark state only through that
snapshot — replacing the dark history by any other one agreeing at
the snapshot tick leaves the pass unchanged, even if the class flips
mid-pass. -/
theorem c7_theme_snapshot_authoritative (env : PassEnv) (s : SchedState)
    (d2 : Nat → Bool) (hidle : s.isRendering = false)
    (hm : env.mermaidAvailable = true) (hne : env.elements ≠ [])
    (hcfg : env.configThrows = false) (hd : d2 1 = env.dark 1) :
    (renderMermaidDiagrams env s).2.countP PEv.isConfigure = 1
    ∧ PEv.configureTheme (themeOf (env.dark 1)) ∈
        (renderMermaidDiagrams env s).2
    ∧ (∀ i f,
        PEv.targetEv i (TEv.setFilter f) ∈ (renderMermaidDiagrams env s).2 →
        f = filterOf (env.dark 1))
    ∧ renderMermaidDiagrams
        ⟨env.mermaidAvailable, env.elements, d2, env.render, env.configThrows⟩
        s = renderMermaidDiagrams env s := by
  have hrun : renderMermaidDiagrams env s =
      (⟨false, 0⟩,
       PEv.flagSet :: PEv.settleDelay 100 ::
         PEv.configureTheme (themeOf (env.dark 1)) ::
         ((env.elements.enum.map (fun p =>
            (renderTarget p.2 (env.render p.1) (env.dark 1)).map
              (PEv.targetEv p.1))).flatten ++ [PEv.flagClear])) := by
    simp [renderMermaidDiagrams, triggerSync, passContinue, hidle, hm, hne,
      hcfg]
  have hX : ∀ e ∈ (env.elements.enum.map (fun p =>
      (renderTarget p.2 (env.render p.1) (env.dark 1)).map
        (PEv.targetEv p.1))).flatten, PEv.isConfigure e = false := by
    intro e he
    rcases List.mem_flatten.mp he with ⟨l, hl, hel⟩
    rcases List.mem_map.mp hl with ⟨p, _hp, rfl⟩
    rcases List.mem_map.mp hel with ⟨t, _ht, rfl⟩
    rfl
  refine ⟨?_, ?_, ?_, ?_⟩
  · rw [hrun]
    simp only [List.countP_cons, List.countP_append]
    have h0 : (env.elements.enum.map (fun p =>
        (renderTarget p.2 (env.render p.1) (env.dark 1)).map
          (PEv.targetEv p.1))).flatten.countP PEv.isConfigure = 0 := by
      rw [List.countP_eq_zero]
      intro a ha
      simp [hX a ha]
    simp [h0, PEv.isConfigure]
  · rw [hrun]
    simp
  · intro i f h
    rw [hrun] at h
    rcases List.mem_cons.mp h with h1 | h
    · exact absurd h1 (by simp)
    rcases List.mem_cons.mp h with h1 | h
    · exact absurd h1 (by simp)
    rcases List.mem_cons.mp h with h1 | h
    · exact absurd h1 (by simp)
    rcases List.mem_append.mp h with h | h1
    · rcases List.mem_flatten.mp h with ⟨l, hl, hel⟩
      rcases List.mem_map.mp hl with ⟨p, _hp, rfl⟩
      rcases List.mem_map.mp hel with ⟨t, ht, hteq⟩
      rw [PEv.targetEv.injEq] at hteq
      rw [hteq.2] at ht
      exact renderTargetLoop_setFilter p.2 (env.render p.1) (env.dark 1) f
        (maxAttempts + 1) 0 ht
    · exact absurd (List.mem_singleton.mp h1) (by simp)
  · simp [renderMermaidDiagrams, triggerSync, passContinue, hd]

/-- Witness for C7: a dark pass over two targets (one renders, one
always fails), with a dark history that differs from the constant one
everywhere except at the snapshot tick. -/
theorem c7_theme_snapshot_authoritative_witness :
    (renderMermaidDiagrams
      ⟨true, [some "graph TD;", some "bad"], fun _ => true,
        fun i _ => if i = 0 then some "<svg>ok</svg>" else none, false⟩
      ⟨false, 0⟩).2.countP PEv.isConfigure = 1
    ∧ PEv.configureTheme (themeOf ((fun (_ : Nat) => true) 1)) ∈
        (renderMermaidDiagrams
          ⟨true, [some "graph TD;", some "bad"], fun _ => true,
            fun i _ => if i = 0 then some "<svg>ok</svg>" else none, false⟩
          ⟨false, 0⟩).2
    ∧ (∀ i f, PEv.targetEv i (TEv.setFilter f) ∈
        (renderMermaidDiagrams
          ⟨true, [some "graph TD;", some "bad"], fun _ => true,
            fun i _ => if i = 0 then some "<svg>ok</svg>" else none, false⟩
          ⟨false, 0⟩).2 →
        f = filterOf ((fun (_ : Nat) => true) 1))
    ∧ renderMermaidDiagrams
        ⟨true, [some "graph TD;", some "bad"], fun t => t == 1,
          fun i _ => if i = 0 then some "<svg>ok</svg>" else none, false⟩
        ⟨false, 0⟩ =
      renderMermaidDiagrams
        ⟨true, [some "graph TD;", some "bad"], fun _ => true,
          fun i _ => if i = 0 then some "<svg>ok</svg>" else none, false⟩
        ⟨false, 0⟩ :=
  c7_theme_snapshot_authoritative
    ⟨true, [some "graph TD;", some "bad"], fun _ => true,
      fun i _ => if i = 0 then some "<svg>ok</svg>" else none, false⟩
    ⟨false, 0⟩ (fun t => t == 1) rfl rfl (by simp) rfl rfl

/-- C4 counterexample: with both CDN sources failing, the code
schedules zero bootstrap retries — `initialize` catches the rejected
`loadMermaid` and only logs, and `initializeMermaid` (the holder of
the 1s/2s/3s retry chain) is never invoked — refuting the claimed
3-attempt linear-backoff retry of the bootstrap sequence on library
load failure. -/
theorem c4_counterexample :
    (initializeSeq ⟨false, false, false, fun _ => false⟩).initRetryDelays = []
    ∧ (initializeSeq ⟨false, false, false, fun _ => false⟩).initRetryDelays ≠
        [RETRY_DELAY * 1, RETRY_DELAY * 2, RETRY_DELAY * 3] := by
  constructor
  · rfl
  · intro h
    simp [initializeSeq, loadMermaid] at h

/-- C4 amended: when both CDN sources fail, `loadMermaid` rejects
with the both-CDNs error, no render pass executes, no retry is
scheduled, and the failure is only logged to the console — the
bootstrap is not retried on a load failure.  The 3-attempt linear
backoff (1s, 2s, 3s) belongs to `initializeMermaid`: when the
library-readiness wait keeps failing after a successful load, exactly
those three retries of `initializeMermaid` are scheduled.  A
pass-level failure inside `renderMermaidDiagrams` reschedules only
the render pass, with delay `RETRY_DELAY * retryCount`, while the
global budget remains. -/
theorem c4_amended_retry_paths (env envW : InitEnv) (penv : PassEnv)
    (s : SchedState)
    (hnp : env.mermaidPresent = false) (hp : env.primaryLoads = false)
    (hf : env.fallbackLoads = false)
    (hloadW : envW.mermaidPresent = true)
    (hw : ∀ n, envW.waitSucceeds n = false)
    (hidle : s.isRendering = false) (hm : penv.mermaidAvailable = true)
    (hne : penv.elements ≠ []) (hcfg : penv.configThrows = true)
    (hrc : s.retryCount < MAX_RETRIES) :
    ((loadMermaid env.mermaidPresent env.primaryLoads env.fallbackLoads).1 =
        LoadResult.rejected bothFailedMsg
      ∧ initializeSeq env =
          ⟨[primaryCDN, fallbackCDN], false, [], [initFailedMsg]⟩)
    ∧ (initializeSeq envW).initRetryDelays =
        [RETRY_DELAY * 1, RETRY_DELAY * 2, RETRY_DELAY * 3]
    ∧ ((renderMermaidDiagrams penv s).1.retryCount = s.retryCount + 1
      ∧ PEv.scheduleRetry (RETRY_DELAY * (s.retryCount + 1)) ∈
          (renderMermaidDiagrams penv s).2) := by
  refine ⟨⟨?_, ?_⟩, ?_, ?_, ?_⟩
  · simp [loadMermaid, hnp, hp, hf]
  · simp [initializeSeq, loadMermaid, hnp, hp, hf]
  · simp [initializeSeq, loadMermaid, hloadW, initializeMermaidRun, hw,
      MAX_RETRIES, RETRY_DELAY]
  · simp [renderMermaidDiagrams, triggerSync, passContinue, hidle, hm, hne,
      hcfg, hrc]
  · simp [renderMermaidDiagrams, triggerSync, passContinue, hidle, hm, hne,
      hcfg, hrc]

/-- Witness for C4 amended, at both-CDN failure, an always-failing
readiness wait, and a pass-level throw with remaining budget. -/
theorem c4_amended_retry_paths_witness :
    ((loadMermaid false false false).1 = LoadResult.rejected bothFailedMsg
      ∧ initializeSeq ⟨false, false, false, fun _ => false⟩ =
          ⟨[primaryCDN, fallbackCDN], false, [], [initFailedMsg]⟩)
    ∧ (initializeSeq ⟨true, true, true, fun _ => false⟩).initRetryDelays =
        [RETRY_DELAY * 1, RETRY_DELAY * 2, RETRY_DELAY * 3]
    ∧ ((renderMermaidDiagrams
          ⟨true, [some "graph TD;"], fun _ => false, fun _ _ => none, true⟩
          ⟨false, 0⟩).1.retryCount = 0 + 1
      ∧ PEv.scheduleRetry (RETRY_DELAY * (0 + 1)) ∈
          (renderMermaidDiagrams
            ⟨true, [some "graph TD;"], fun _ => false, fun _ _ => none, true⟩
            ⟨false, 0⟩).2) :=
  c4_amended_retry_paths ⟨false, false, false, fun _ => false⟩
    ⟨true, true, true, fun _ => false⟩
    ⟨true, [some "graph TD;"], fun _ => false, fun _ _ => none, true⟩
    ⟨false, 0⟩ rfl rfl rfl rfl (fun _ => rfl) rfl rfl (by simp) rfl
    (by decide)
